import Mathlib

/-!
Verification of the clabel printer-protocol driver (Brother P-Touch label
printers), shallowly embedded from the JavaScript sources.

Components embedded here:

* `Readable.js` — the wire command codec: `toBinary` (text commands to
  bytes) and `fromBinary` (bytes to text commands).
* `PrinterStatus.js` — the status report codec (`parseRaw`,
  `deriveDimensions`) and its model table.
* `PTouchStatus` (the sibling status codec variant shipped alongside
  `PTouch.js`) — same report layout, stricter phase handling.
* `PTouch.js` — the driver: `reset`, `eject`, `pollStatus` and the raster
  encoder `printImage`; plus the older `pollStatus`/`initialise` variant.

Modelling conventions:

* JavaScript numbers that only ever hold byte values or counters are
  modelled as `Nat`; millimetre/pixel dimension arithmetic is modelled
  over `ℚ` (every concrete value exercised by the program is a small
  dyadic-free rational; `x / 0` in `ℚ` is `0` where JS would produce
  `NaN` or `Infinity` — no claim below depends on that corner).
* Reading past the end of a JS array yields `undefined`; we model reads
  as `Option Nat` (`none` = `undefined`) and `NaN`-producing arithmetic
  on such reads as `Option` propagation.
* Fallible code returns `Except`.
-/

namespace Clabel

/-! ## Wire command codec (`Readable.js`)

The decoded form of the command vocabulary of `fromBinary`.  Operand
fields are `Option Nat` because `fromBinary` reads operands with
`buff[i++]`, which yields `undefined` (here `none`) past the end of the
buffer; the `Feed` operand is the computed `lo + hi * 256`, which is `NaN`
(here `none`) when either byte read was `undefined`. -/
inductive DCommand where
  | invalidate
  | initialiseClear
  | sendStatus
  | setTransferMode (mode : Option Nat)
  | feedAmount (amount : Option Nat)
  | printFeed
  | printNoFeed
  | emptyRaster
  | compress (mode : Option Nat)
  | rasterRow (payload : List (Option Nat))
  deriving DecidableEq

/-- Errors thrown by `fromBinary`: `violation` is the two
"Protocol violation" throw sites, `commandError` the "Command error"
default of the innermost switch, and `typeError` the `TypeError` raised
when the message template evaluates `undefined.toString(16)` (reached when
the byte after `0x1B`, or after `0x1B 0x69`, was read past the end of the
buffer). -/
inductive DecodeErr where
  | violation (b : Nat)
  | commandError (b : Nat)
  | typeError
  deriving DecidableEq

/-- Encoding of a single decoded command back to bytes, mirroring the
corresponding `case` of `toBinary` in `Readable.js` followed by the
`Buffer.from` coercion of each pushed value to a byte (`% 256`).  The
`getD 0` on operands mirrors `parseInt` of a well-formed decimal parameter
for the values actually exercised; every theorem below applies it only to
well-formed commands (operand present and in range), where it is exact. -/
def toBinaryOne : DCommand → List Nat
  | .invalidate => [0x00]
  | .initialiseClear => [0x1B, 0x40]
  | .sendStatus => [0x1B, 0x69, 0x53]
  | .setTransferMode m => [0x1B, 0x69, 0x52, m.getD 0 % 256]
  | .feedAmount a => [0x1B, 0x69, 0x64, a.getD 0 % 256, a.getD 0 / 256 % 256]
  | .printFeed => [0x1A]
  | .printNoFeed => [0x0C]
  | .emptyRaster => [0x5A]
  | .compress m => [0x4D, m.getD 0 % 256]
  | .rasterRow p =>
      0x47 :: p.length % 256 :: p.length / 256 % 256
        :: p.map (fun o => o.getD 0 % 256)

/-- The whole of `toBinary`: concatenation of the per-command encodings. -/
def toBinary (cs : List DCommand) : List Nat :=
  (cs.map toBinaryOne).flatten

/-- One iteration of the `while` loop of `fromBinary`, operating on the
first byte `b` and the remaining bytes `rest`; `recur` continues the loop
on the bytes after the current command.  Each branch mirrors the
corresponding `case` of `Readable.js`, including the behaviour on
truncated input: operand reads past the end come back `none`
(JS `undefined`), a `Feed` or `Raster` length computed from an undefined
byte is `none` (JS `NaN`, making the `Raster` payload loop run zero
times), and the two fall-through throw sites that interpolate
`buff[i-1].toString(16)` raise `typeError` when that byte was itself
`undefined`. -/
def fromBinaryStep (recur : List Nat → Except DecodeErr (List DCommand))
    (b : Nat) (rest : List Nat) : Except DecodeErr (List DCommand) :=
  if b = 0x00 then (recur rest).map (.invalidate :: ·)
  else if b = 0x1B then
    match rest.get? 0 with
    | none => .error .typeError
    | some b2 =>
      if b2 = 0x40 then (recur (rest.drop 1)).map (.initialiseClear :: ·)
      else if b2 = 0x69 then
        match rest.get? 1 with
        | none => .error .typeError
        | some b3 =>
          if b3 = 0x53 then (recur (rest.drop 2)).map (.sendStatus :: ·)
          else if b3 = 0x52 then
            (recur (rest.drop 3)).map (.setTransferMode (rest.get? 2) :: ·)
          else if b3 = 0x64 then
            (recur (rest.drop 4)).map
              (.feedAmount (match rest.get? 2, rest.get? 3 with
                | some lo, some hi => some (lo + hi * 256)
                | _, _ => none) :: ·)
          else .error (.commandError b3)
      else .error (.violation b2)
  else if b = 0x1A then (recur rest).map (.printFeed :: ·)
  else if b = 0x0C then (recur rest).map (.printNoFeed :: ·)
  else if b = 0x5A then (recur rest).map (.emptyRaster :: ·)
  else if b = 0x4D then (recur (rest.drop 1)).map (.compress (rest.get? 0) :: ·)
  else if b = 0x47 then
    match rest.get? 0, rest.get? 1 with
    | some lo, some hi =>
      (recur (rest.drop (2 + (lo + hi * 256)))).map
        (.rasterRow ((List.range (lo + hi * 256)).map
          (fun j => rest.get? (2 + j))) :: ·)
    | _, _ => (recur (rest.drop 2)).map (.rasterRow [] :: ·)
  else .error (.violation b)

/-- Fuelled driver for the `fromBinary` loop.  Each iteration consumes at
least one byte, so fuel equal to the buffer length always suffices; the
fuel-exhaustion branch is unreachable under that discipline. -/
def fromBinaryAux : Nat → List Nat → Except DecodeErr (List DCommand)
  | _, [] => .ok []
  | 0, _ :: _ => .error .typeError
  | fuel + 1, b :: rest => fromBinaryStep (fromBinaryAux fuel) b rest

/-- The whole of `fromBinary`. -/
def fromBinary (buff : List Nat) : Except DecodeErr (List DCommand) :=
  fromBinaryAux buff.length buff

/-- A decoded command is well formed when its operands are present and in
range: exactly the command set `toBinary` serialises byte-exactly. -/
def DCommand.wf : DCommand → Prop
  | .setTransferMode m => m.isSome ∧ m.getD 0 < 256
  | .feedAmount a => a.isSome ∧ a.getD 0 < 65536
  | .compress m => m.isSome ∧ m.getD 0 < 256
  | .rasterRow p => p.length < 65536 ∧ ∀ o ∈ p, o.isSome ∧ o.getD 0 < 256
  | _ => True

instance : DecidablePred DCommand.wf := by
  intro c
  cases c <;> simp only [DCommand.wf] <;> infer_instance

theorem fromBinaryAux_cons (f b : Nat) (rest : List Nat) :
    fromBinaryAux (f + 1) (b :: rest) = fromBinaryStep (fromBinaryAux f) b rest :=
  rfl

theorem fromBinaryStep_00 (r : List Nat → Except DecodeErr (List DCommand))
    (rest : List Nat) :
    fromBinaryStep r 0x00 rest = (r rest).map (.invalidate :: ·) := rfl

theorem fromBinaryStep_1B40 (r : List Nat → Except DecodeErr (List DCommand))
    (rest : List Nat) :
    fromBinaryStep r 0x1B (0x40 :: rest)
      = (r rest).map (.initialiseClear :: ·) := rfl

theorem fromBinaryStep_1B6953 (r : List Nat → Except DecodeErr (List DCommand))
    (rest : List Nat) :
    fromBinaryStep r 0x1B (0x69 :: 0x53 :: rest)
      = (r rest).map (.sendStatus :: ·) := rfl

theorem fromBinaryStep_1B6952 (r : List Nat → Except DecodeErr (List DCommand))
    (v : Nat) (rest : List Nat) :
    fromBinaryStep r 0x1B (0x69 :: 0x52 :: v :: rest)
      = (r rest).map (.setTransferMode (some v) :: ·) := rfl

theorem fromBinaryStep_1B6964 (r : List Nat → Except DecodeErr (List DCommand))
    (lo hi : Nat) (rest : List Nat) :
    fromBinaryStep r 0x1B (0x69 :: 0x64 :: lo :: hi :: rest)
      = (r rest).map (.feedAmount (some (lo + hi * 256)) :: ·) := rfl

theorem fromBinaryStep_1A (r : List Nat → Except DecodeErr (List DCommand))
    (rest : List Nat) :
    fromBinaryStep r 0x1A rest = (r rest).map (.printFeed :: ·) := rfl

theorem fromBinaryStep_0C (r : List Nat → Except DecodeErr (List DCommand))
    (rest : List Nat) :
    fromBinaryStep r 0x0C rest = (r rest).map (.printNoFeed :: ·) := rfl

theorem fromBinaryStep_5A (r : List Nat → Except DecodeErr (List DCommand))
    (rest : List Nat) :
    fromBinaryStep r 0x5A rest = (r rest).map (.emptyRaster :: ·) := rfl

theorem fromBinaryStep_4D (r : List Nat → Except DecodeErr (List DCommand))
    (v : Nat) (rest : List Nat) :
    fromBinaryStep r 0x4D (v :: rest)
      = (r rest).map (.compress (some v) :: ·) := rfl

theorem fromBinaryStep_47 (r : List Nat → Except DecodeErr (List DCommand))
    (lo hi : Nat) (tail : List Nat) :
    fromBinaryStep r 0x47 (lo :: hi :: tail)
      = (r ((lo :: hi :: tail).drop (2 + (lo + hi * 256)))).map
          (.rasterRow ((List.range (lo + hi * 256)).map
            (fun j => (lo :: hi :: tail).get? (2 + j))) :: ·) := rfl

set_option maxHeartbeats 1000000 in
theorem fromBinaryStep_congr (r₁ r₂ : List Nat → Except DecodeErr (List DCommand))
    (b : Nat) (rest : List Nat)
    (h : ∀ X : List Nat, X.length ≤ rest.length → r₁ X = r₂ X) :
    fromBinaryStep r₁ b rest = fromBinaryStep r₂ b rest := by
  have hrest : r₁ rest = r₂ rest := h rest (Nat.le_refl _)
  have hd : ∀ k, r₁ (rest.drop k) = r₂ (rest.drop k) := fun k => h _ (by simp)
  unfold fromBinaryStep
  split_ifs
  all_goals (repeat' split)
  all_goals
    first
      | rfl
      | exact congrArg _ hrest
      | exact congrArg _ (hd _)

theorem fromBinaryAux_congr : ∀ (f g : Nat) (buff : List Nat),
    buff.length ≤ f → buff.length ≤ g →
    fromBinaryAux f buff = fromBinaryAux g buff := by
  intro f
  induction f with
  | zero =>
    intro g buff hf _
    have hb : buff = [] := List.length_eq_zero.mp (Nat.le_zero.mp hf)
    subst hb
    cases g <;> rfl
  | succ f ih =>
    intro g buff hf hg
    cases buff with
    | nil => cases g <;> rfl
    | cons b rest =>
      cases g with
      | zero => simp at hg
      | succ g =>
        rw [fromBinaryAux_cons, fromBinaryAux_cons]
        apply fromBinaryStep_congr
        intro X hX
        exact ih g X (le_trans hX (Nat.le_of_succ_le_succ hf))
          (le_trans hX (Nat.le_of_succ_le_succ hg))

theorem range_map_get_append (bytes rest : List Nat) :
    (List.range bytes.length).map (fun j => (bytes ++ rest).get? j)
      = bytes.map some := by
  induction bytes with
  | nil => simp
  | cons a bs ih =>
    simp only [List.length_cons, List.range_succ_eq_map, List.map_cons,
      List.cons_append, List.get?_cons_zero, List.map_map]
    refine congrArg (some a :: ·) ?_
    have hc : ((fun j => (a :: (bs ++ rest)).get? j) ∘ Nat.succ)
        = fun j => (bs ++ rest).get? j := by
      funext j
      simp [List.get?]
    rw [hc, ih]

theorem fromBinaryAux_encodeOne (c : DCommand) (hc : c.wf) (rest : List Nat) :
    ∀ fuel, (toBinaryOne c ++ rest).length ≤ fuel →
    fromBinaryAux fuel (toBinaryOne c ++ rest)
      = (fromBinaryAux rest.length rest).map (c :: ·) := by
  have hcongr : ∀ f, rest.length ≤ f →
      fromBinaryAux f rest = fromBinaryAux rest.length rest := fun f hf =>
    fromBinaryAux_congr f rest.length rest hf (Nat.le_refl _)
  intro fuel hfuel
  cases c with
  | invalidate =>
    cases fuel with
    | zero => simp [toBinaryOne] at hfuel
    | succ f =>
      simp only [toBinaryOne, List.length_append, List.length_cons,
        List.length_nil] at hfuel
      rw [show toBinaryOne .invalidate ++ rest = 0x00 :: rest from rfl,
        fromBinaryAux_cons, fromBinaryStep_00, hcongr f (by omega)]
  | initialiseClear =>
    cases fuel with
    | zero => simp [toBinaryOne] at hfuel
    | succ f =>
      simp only [toBinaryOne, List.length_append, List.length_cons,
        List.length_nil] at hfuel
      rw [show toBinaryOne .initialiseClear ++ rest = 0x1B :: 0x40 :: rest from rfl,
        fromBinaryAux_cons, fromBinaryStep_1B40, hcongr f (by omega)]
  | sendStatus =>
    cases fuel with
    | zero => simp [toBinaryOne] at hfuel
    | succ f =>
      simp only [toBinaryOne, List.length_append, List.length_cons,
        List.length_nil] at hfuel
      rw [show toBinaryOne .sendStatus ++ rest = 0x1B :: 0x69 :: 0x53 :: rest from rfl,
        fromBinaryAux_cons, fromBinaryStep_1B6953, hcongr f (by omega)]
  | setTransferMode m =>
    obtain ⟨hm, hv⟩ := hc
    obtain ⟨v, rfl⟩ := Option.isSome_iff_exists.mp hm
    simp only [Option.getD_some] at hv
    cases fuel with
    | zero => simp [toBinaryOne] at hfuel
    | succ f =>
      simp only [toBinaryOne, List.length_append, List.length_cons,
        List.length_nil] at hfuel
      rw [show toBinaryOne (.setTransferMode (some v)) ++ rest
            = 0x1B :: 0x69 :: 0x52 :: v % 256 :: rest from rfl,
        fromBinaryAux_cons, fromBinaryStep_1B6952, hcongr f (by omega),
        Nat.mod_eq_of_lt hv]
  | feedAmount a =>
    obtain ⟨hm, hv⟩ := hc
    obtain ⟨v, rfl⟩ := Option.isSome_iff_exists.mp hm
    simp only [Option.getD_some] at hv
    cases fuel with
    | zero => simp [toBinaryOne] at hfuel
    | succ f =>
      simp only [toBinaryOne, List.length_append, List.length_cons,
        List.length_nil] at hfuel
      rw [show toBinaryOne (.feedAmount (some v)) ++ rest
            = 0x1B :: 0x69 :: 0x64 :: v % 256 :: (v / 256 % 256) :: rest from rfl,
        fromBinaryAux_cons, fromBinaryStep_1B6964, hcongr f (by omega)]
      have hsum : v % 256 + v / 256 % 256 * 256 = v := by
        have h1 : v / 256 % 256 = v / 256 := Nat.mod_eq_of_lt (by omega)
        rw [h1]
        omega
      rw [hsum]
  | printFeed =>
    cases fuel with
    | zero => simp [toBinaryOne] at hfuel
    | succ f =>
      simp only [toBinaryOne, List.length_append, List.length_cons,
        List.length_nil] at hfuel
      rw [show toBinaryOne .printFeed ++ rest = 0x1A :: rest from rfl,
        fromBinaryAux_cons, fromBinaryStep_1A, hcongr f (by omega)]
  | printNoFeed =>
    cases fuel with
    | zero => simp [toBinaryOne] at hfuel
    | succ f =>
      simp only [toBinaryOne, List.length_append, List.length_cons,
        List.length_nil] at hfuel
      rw [show toBinaryOne .printNoFeed ++ rest = 0x0C :: rest from rfl,
        fromBinaryAux_cons, fromBinaryStep_0C, hcongr f (by omega)]
  | emptyRaster =>
    cases fuel with
    | zero => simp [toBinaryOne] at hfuel
    | succ f =>
      simp only [toBinaryOne, List.length_append, List.length_cons,
        List.length_nil] at hfuel
      rw [show toBinaryOne .emptyRaster ++ rest = 0x5A :: rest from rfl,
        fromBinaryAux_cons, fromBinaryStep_5A, hcongr f (by omega)]
  | compress m =>
    obtain ⟨hm, hv⟩ := hc
    obtain ⟨v, rfl⟩ := Option.isSome_iff_exists.mp hm
    simp only [Option.getD_some] at hv
    cases fuel with
    | zero => simp [toBinaryOne] at hfuel
    | succ f =>
      simp only [toBinaryOne, List.length_append, List.length_cons,
        List.length_nil] at hfuel
      rw [show toBinaryOne (.compress (some v)) ++ rest
            = 0x4D :: v % 256 :: rest from rfl,
        fromBinaryAux_cons, fromBinaryStep_4D, hcongr f (by omega),
        Nat.mod_eq_of_lt hv]
  | rasterRow p =>
    obtain ⟨hlen, hall⟩ := hc
    cases fuel with
    | zero => simp [toBinaryOne] at hfuel
    | succ f =>
      have henc : toBinaryOne (.rasterRow p) ++ rest
          = 0x47 :: p.length % 256 :: (p.length / 256 % 256)
              :: (p.map (fun o => o.getD 0 % 256) ++ rest) := by
        simp [toBinaryOne]
      simp only [toBinaryOne] at hfuel
      rw [henc, fromBinaryAux_cons, fromBinaryStep_47]
      have hsum : p.length % 256 + p.length / 256 % 256 * 256 = p.length := by
        have h1 : p.length / 256 % 256 = p.length / 256 :=
          Nat.mod_eq_of_lt (by omega)
        rw [h1]
        omega
      rw [hsum]
      have hlenenc : (p.map (fun o => o.getD 0 % 256)).length = p.length := by
        simp
      have hdrop : (p.length % 256 :: (p.length / 256 % 256)
            :: (p.map (fun o => o.getD 0 % 256) ++ rest)).drop (2 + p.length)
          = rest := by
        rw [show 2 + p.length = p.length + 1 + 1 from by omega,
          List.drop_succ_cons, List.drop_succ_cons, ← hlenenc, List.drop_left]
      rw [hdrop]
      have hidx : ∀ j, (p.length % 256 :: (p.length / 256 % 256)
            :: (p.map (fun o : Option Nat => o.getD 0 % 256) ++ rest)).get? (2 + j)
          = (p.map (fun o : Option Nat => o.getD 0 % 256) ++ rest).get? j := by
        intro j
        rw [show 2 + j = j + 1 + 1 from by omega]
        rfl
      have hpayload : (List.range p.length).map
          (fun j => (p.length % 256 :: (p.length / 256 % 256)
            :: (p.map (fun o : Option Nat => o.getD 0 % 256) ++ rest)).get? (2 + j)) = p := by
        rw [List.map_congr_left (fun j _ => hidx j), ← hlenenc,
          range_map_get_append, List.map_map]
        have hone : ∀ o ∈ p, (some ∘ fun o => o.getD 0 % 256) o = id o := by
          intro o ho
          obtain ⟨hs, hlt⟩ := hall o ho
          obtain ⟨w, rfl⟩ := Option.isSome_iff_exists.mp hs
          simp only [Option.getD_some] at hlt
          simp [Nat.mod_eq_of_lt hlt]
        rw [List.map_congr_left hone, List.map_id]
      rw [hpayload]
      have hlenfuel : rest.length ≤ f := by
        simp only [List.length_append, List.length_cons, List.length_map] at hfuel ⊢
        omega
      rw [hcongr f hlenfuel]

/-- Round trip over the supported command set: encoding with `toBinary`
and then decoding with `fromBinary` returns the original sequence. -/
theorem fromBinary_toBinary (cs : List DCommand) (h : ∀ c ∈ cs, c.wf) :
    fromBinary (toBinary cs) = .ok cs := by
  induction cs with
  | nil => rfl
  | cons c cs ih =>
    have hc : c.wf := h c (by simp)
    have hcs : ∀ x ∈ cs, x.wf := fun x hx => h x (by simp [hx])
    have hsplit : toBinary (c :: cs) = toBinaryOne c ++ toBinary cs := by
      simp [toBinary]
    rw [fromBinary, hsplit,
      fromBinaryAux_encodeOne c hc (toBinary cs) _ (Nat.le_refl _)]
    have hok : fromBinaryAux (toBinary cs).length (toBinary cs) = .ok cs := ih hcs
    rw [hok]
    rfl

/-- A byte that is not one of the seven top-level opcodes is rejected by
the final `default: throw Protocol violation` case of `fromBinary`. -/
theorem fromBinary_unknown_opcode (b : Nat) (rest : List Nat)
    (h : b ∉ ([0x00, 0x1B, 0x1A, 0x0C, 0x5A, 0x4D, 0x47] : List Nat)) :
    fromBinary (b :: rest) = .error (.violation b) := by
  simp only [List.mem_cons, List.not_mem_nil, or_false, not_or] at h
  obtain ⟨h0, h1, h2, h3, h4, h5, h6⟩ := h
  show fromBinaryStep (fromBinaryAux rest.length) b rest = _
  simp [fromBinaryStep, h0, h1, h2, h3, h4, h5, h6]

/-- C2 (amended).  Encoding any sequence of supported wire commands with
in-range operands and decoding it back yields the original sequence
(this includes the boundary values `FeedAmount 0`, `FeedAmount 65535`
and a zero-length `RasterRow`, which are well formed); decoding fails on
every byte sequence that starts with a byte outside the seven-opcode
grammar; but — contrary to the original claim — a command truncated at
the end of the input is not always rejected: a trailing lone `0x4D`
(`Compress` with its mode byte missing) decodes successfully, the missing
operand read back as JS `undefined`. -/
theorem C2_wire_codec :
    (∀ cs : List DCommand, (∀ c ∈ cs, c.wf) →
        fromBinary (toBinary cs) = .ok cs)
    ∧ (∀ (b : Nat) (rest : List Nat),
        b ∉ ([0x00, 0x1B, 0x1A, 0x0C, 0x5A, 0x4D, 0x47] : List Nat) →
        fromBinary (b :: rest) = .error (.violation b))
    ∧ fromBinary [0x4D] = .ok [.compress none] := by
  refine ⟨fromBinary_toBinary, fromBinary_unknown_opcode, ?_⟩
  rfl

/-- C2 witness: the round trip evaluated on a concrete command sequence
containing the boundary values, and the rejection of an unknown opcode. -/
theorem C2_wire_codec_witness :
    fromBinary (toBinary
      [.invalidate, .initialiseClear, .sendStatus, .setTransferMode (some 1),
       .feedAmount (some 0), .feedAmount (some 65535), .compress (some 0),
       .emptyRaster, .rasterRow [], .rasterRow [some 2, some 255],
       .printFeed, .printNoFeed])
      = .ok
      [.invalidate, .initialiseClear, .sendStatus, .setTransferMode (some 1),
       .feedAmount (some 0), .feedAmount (some 65535), .compress (some 0),
       .emptyRaster, .rasterRow [], .rasterRow [some 2, some 255],
       .printFeed, .printNoFeed]
    ∧ fromBinary (0x99 :: [0x00, 0x0C]) = .error (.violation 0x99) :=
  ⟨C2_wire_codec.1 _ (by decide), C2_wire_codec.2.1 0x99 [0x00, 0x0C] (by decide)⟩

/-- C2 counterexample to the claim as stated: the single byte `0x4D` is
outside the opcode grammar (it is not the encoding of any command
sequence — `Compress` requires a mode byte), yet `fromBinary` does not
fail on it: it decodes to a `Compress` whose operand was read past the
end of the buffer. -/
theorem C2_counterexample :
    (∀ cs : List DCommand, toBinary cs ≠ [0x4D])
    ∧ fromBinary [0x4D] = .ok [.compress none] := by
  constructor
  · intro cs
    cases cs with
    | nil => simp [toBinary]
    | cons c cs => cases c <;> simp [toBinary, toBinaryOne]
  · rfl

/-! ## Status report codec (`PrinterStatus.js` and the `PTouchStatus`
variant)

Both codecs parse the same fixed 32-byte report; they differ in the
model table they consult, in the dynamic type of some populated fields,
and in the handling of the phase bytes 19/21. -/

/-- Byte access into a report buffer: `raw[i]`.  Every read below is
guarded by the 32-byte length check, so the default is never observable.
-/
def byteAt (raw : List Nat) (i : Nat) : Nat :=
  raw.getD i 0

/-- A `defaultStatus` template object of a model-table entry.  The JS
templates are plain objects; `eject_mm` is `Option` because the
`Models.js` templates (`DEFAULT_PT1230` and the `PT-P900` block) carry no
`eject_mm` key, while the `PT1230` template inside `PrinterStatus.js`
does. -/
structure StatusTemplate where
  eject_mm : Option ℚ
  raster_px : ℚ
  raster_mm : ℚ
  printable_width_px : ℚ
  printable_width_mm : ℚ
  media_type : String
  media_width_mm : ℚ
  deriving DecidableEq

/-- The `PT1230` `defaultStatus` of the `MODELS` array in
`PrinterStatus.js` (the only entry of that array with a template). -/
def PT1230_defaultStatus : StatusTemplate :=
  { eject_mm := some 20, raster_px := 128, raster_mm := 18,
    printable_width_px := 64, printable_width_mm := 9,
    media_type := "Laminated", media_width_mm := 12 }

/-- `DEFAULT_PT1230` of `Models.js` (note: no `eject_mm` key). -/
def DEFAULT_PT1230 : StatusTemplate :=
  { eject_mm := none, raster_px := 128, raster_mm := 18,
    printable_width_px := 64, printable_width_mm := 9,
    media_type := "Laminated", media_width_mm := 12 }

/-- The `PT-P900` `defaultStatus` block of `Models.js`. -/
def PTP900_defaultStatus : StatusTemplate :=
  { eject_mm := none, raster_px := 512, raster_mm := 36,
    printable_width_px := 454, printable_width_mm := 3203 / 100,
    media_type := "Laminated", media_width_mm := 36 }

/-- An entry of the `MODELS` array of `PrinterStatus.js`. -/
structure PSModel where
  deviceCode : Nat
  name : String
  defaultStatus : Option StatusTemplate
  deriving DecidableEq

/-- The `MODELS` array of `PrinterStatus.js`. -/
def PS_MODELS : List PSModel :=
  [ ⟨0x59, "PT1230", some PT1230_defaultStatus⟩,
    ⟨0x4A, "PT500", none⟩,
    ⟨0x64, "PT-H500", none⟩,
    ⟨0x65, "PT-E500", none⟩,
    ⟨0x67, "PT-P700", none⟩,
    ⟨0x69, "PT-P900W", none⟩,
    ⟨0x70, "PT-P950NW", none⟩,
    ⟨0x71, "PT-P900", none⟩,
    ⟨0x78, "PT-P910BT", none⟩ ]

/-- `PrinterStatus.getModelByDeviceCode`: first `MODELS` entry with the
given device code. -/
def PrinterStatus.getModelByDeviceCode (code : Nat) : Option PSModel :=
  PS_MODELS.find? (fun m => m.deviceCode == code)

/-- An entry of the `MODELS` array of `Models.js` (every entry there has
a `defaultStatus`). -/
structure Model where
  deviceCode : Nat
  name : String
  defaultStatus : StatusTemplate
  deriving DecidableEq

/-- The `MODELS` array of `Models.js`. -/
def MODELS : List Model :=
  [ ⟨0x59, "PT1230", DEFAULT_PT1230⟩,
    ⟨0x4A, "PT500", DEFAULT_PT1230⟩,
    ⟨0x64, "PT-H500", DEFAULT_PT1230⟩,
    ⟨0x65, "PT-E500", DEFAULT_PT1230⟩,
    ⟨0x67, "PT-P700", DEFAULT_PT1230⟩,
    ⟨0x69, "PT-P900W", DEFAULT_PT1230⟩,
    ⟨0x70, "PT-P950NW", DEFAULT_PT1230⟩,
    ⟨0x71, "PT-P900", PTP900_defaultStatus⟩,
    ⟨0x78, "PT-P910BT", DEFAULT_PT1230⟩ ]

/-- `Models.getModelByDeviceCode`. -/
def Models.getModelByDeviceCode (code : Nat) : Option Model :=
  MODELS.find? (fun m => m.deviceCode == code)

/-- The `PrinterStatus` record.  Fields carry the JS constructor
defaults; fields the constructor leaves unset are `Option` with `none`
for `undefined`.  (`media_width_mm` is also unset by the constructor, but
every embedded path assigns it before `deriveDimensions` reads it, so it
is modelled with default `0`.) -/
structure PStatus where
  eject_mm : ℚ := 0
  eject_px : ℚ := 0
  raster_px : ℚ := 0
  raster_mm : ℚ := 0
  pixel_width_mm : ℚ := 0
  printable_width_px : ℚ := 0
  printable_width_mm : ℚ := 0
  media_width_px : ℚ := 0
  phase : String := "Initialisation"
  media_width_mm : ℚ := 0
  model : Option String := none
  error_information : Option Nat := none
  media_type : Option String := none
  number_of_colours : Option Nat := none
  fonts : Option Nat := none
  japanese_fonts : Option Nat := none
  mirror_printing : Option Bool := none
  auto_cut : Option Bool := none
  density : Option Nat := none
  media_length : Option Nat := none
  status_type : Option String := none
  cover : Option String := none
  expansion_area : Option Nat := none
  tape_color_information : Option Nat := none
  text_color_information : Option Nat := none
  hardware_settings_0 : Option Nat := none
  hardware_settings_1 : Option Nat := none
  hardware_settings_2 : Option Nat := none
  hardware_settings_3 : Option Nat := none
  deriving DecidableEq

/-- `PrinterStatus.deriveDimensions`: recompute the derived dimension
fields from the primary ones; `Math.floor(x + 0.5)` is `⌊x + 1/2⌋`, and
the narrow-tape clamp replaces `printable_width_px` by
`media_width_mm / pixel_width_mm` when the tape is narrower than the
print head.  `printable_width_mm` is recomputed unconditionally at the
end. -/
def PrinterStatus.deriveDimensions (s : PStatus) : PStatus :=
  let eject_px : ℚ := (⌊s.raster_px * s.eject_mm / s.raster_mm + 1 / 2⌋ : ℤ)
  let pixel_width_mm := s.raster_mm / s.raster_px
  let media_width_px := s.media_width_mm / pixel_width_mm
  let printable_width_px :=
    if media_width_px < s.printable_width_px then
      s.media_width_mm / pixel_width_mm
    else s.printable_width_px
  { s with
    eject_px := eject_px,
    pixel_width_mm := pixel_width_mm,
    media_width_px := media_width_px,
    printable_width_px := printable_width_px,
    printable_width_mm := printable_width_px * pixel_width_mm }

/-- `PrinterStatus.copy`: `for (const key of Object.keys(status)) ...` —
copies exactly the keys present on the source object, so a template
without `eject_mm` leaves the field untouched. -/
def PrinterStatus.copy (s : PStatus) (t : StatusTemplate) : PStatus :=
  { s with
    eject_mm := t.eject_mm.getD s.eject_mm,
    raster_px := t.raster_px,
    raster_mm := t.raster_mm,
    printable_width_px := t.printable_width_px,
    printable_width_mm := t.printable_width_mm,
    media_type := some t.media_type,
    media_width_mm := t.media_width_mm }

/-- The `media_type` value table of `PrinterStatus.parseRaw`;
unmapped codes give "Unknown". -/
def PS_mediaTypeName (b : Nat) : String :=
  if b = 0x01 then "Laminated"
  else if b = 0x02 then "Lettering"
  else if b = 0x03 then "Non-laminated"
  else if b = 0x04 then "Fabric"
  else if b = 0x08 then "AV"
  else if b = 0x09 then "HG"
  else if b = 0x11 then "Heat shrink 2:1"
  else if b = 0x13 then "Fle"
  else if b = 0x14 then "Flexible ID"
  else if b = 0x15 then "Satin"
  else if b = 0x17 then "Heat shrink 3:1"
  else if b = 0xFF then "Incompatible tape"
  else "Unknown"

/-- The `status_type` switch of `PrinterStatus.parseRaw`: only codes 1, 2
and 6 assign; any other code leaves the previous value. -/
def PS_statusTypeUpdate (b : Nat) (prev : Option String) : Option String :=
  if b = 0x01 then some "Printing complete"
  else if b = 0x02 then some "Error occurred"
  else if b = 0x06 then some "Phase change"
  else prev

/-- The phase switch of `PrinterStatus.parseRaw` over bytes 19 and 21:
byte 19 = 0 gives "Feeding" when byte 21 = 1 and "Receiving" otherwise;
byte 19 = 1 gives "Printing"; any other byte 19 leaves the phase
unchanged (no `default` case). -/
def PS_phaseUpdate (b19 b21 : Nat) (prev : String) : String :=
  if b19 = 0 then (if b21 = 1 then "Feeding" else "Receiving")
  else if b19 = 1 then "Printing"
  else prev

/-- The cover switch of `PrinterStatus.parseRaw`. -/
def PS_coverUpdate (b22 : Nat) (prev : Option String) : Option String :=
  if b22 = 1 then some "Opened"
  else if b22 = 2 then some "Closed"
  else prev

/-- Field population of `PrinterStatus.parseRaw` after the integrity
checks and the model lookup have passed: records the model name, copies
the model template when present, and overlays the report-derived fields.
`(raw[15] && 1) !== 0` and `(raw[15] && 2) !== 0` in the source both
amount to `raw[15] ≠ 0` (JS `&&`, not `&`). -/
def PrinterStatus.populate (raw : List Nat) (model : PSModel) : PStatus :=
  let s1 : PStatus := { model := some model.name }
  let s2 := match model.defaultStatus with
    | some t => PrinterStatus.copy s1 t
    | none => s1
  { s2 with
    error_information :=
      if byteAt raw 8 ≠ 0 ∨ byteAt raw 9 ≠ 0 then
        some (byteAt raw 8 <<< 8 ||| byteAt raw 9)
      else s2.error_information,
    media_type := some (PS_mediaTypeName (byteAt raw 11)),
    media_width_mm := (byteAt raw 10 : ℚ),
    number_of_colours :=
      if byteAt raw 12 ≠ 0 then some (byteAt raw 12) else s2.number_of_colours,
    fonts := if byteAt raw 13 ≠ 0 then some (byteAt raw 13) else s2.fonts,
    japanese_fonts :=
      if byteAt raw 14 ≠ 0 then some (byteAt raw 14) else s2.japanese_fonts,
    mirror_printing :=
      if byteAt raw 15 ≠ 0 then some true else s2.mirror_printing,
    auto_cut := if byteAt raw 15 ≠ 0 then some true else s2.auto_cut,
    density := if byteAt raw 16 ≠ 0 then some (byteAt raw 16) else s2.density,
    media_length :=
      if byteAt raw 17 ≠ 0 then some (byteAt raw 17) else s2.media_length,
    status_type := PS_statusTypeUpdate (byteAt raw 18) s2.status_type,
    phase := PS_phaseUpdate (byteAt raw 19) (byteAt raw 21) s2.phase,
    cover := PS_coverUpdate (byteAt raw 22) s2.cover,
    expansion_area :=
      if byteAt raw 23 ≠ 0 then some (byteAt raw 23) else s2.expansion_area,
    tape_color_information :=
      if byteAt raw 24 ≠ 0 then some (byteAt raw 24)
      else s2.tape_color_information,
    text_color_information :=
      if byteAt raw 25 ≠ 0 then some (byteAt raw 25)
      else s2.text_color_information,
    hardware_settings_0 :=
      if byteAt raw 26 ≠ 0 then some (byteAt raw 26) else s2.hardware_settings_0,
    hardware_settings_1 :=
      if byteAt raw 27 ≠ 0 then some (byteAt raw 27) else s2.hardware_settings_1,
    hardware_settings_2 :=
      if byteAt raw 28 ≠ 0 then some (byteAt raw 28) else s2.hardware_settings_2,
    hardware_settings_3 :=
      if byteAt raw 29 ≠ 0 then some (byteAt raw 29) else s2.hardware_settings_3 }

/-- `PrinterStatus.parseRaw`: the five integrity checks, the model
lookup, then field population.  It never raises after the lookup has
succeeded. -/
def PrinterStatus.parseRaw (raw : List Nat) : Except String PStatus :=
  if raw.length < 32 then .error "Bad report length"
  else if byteAt raw 0 ≠ 0x80 then .error "Bad print head mark"
  else if byteAt raw 2 ≠ 0x42 then .error "Bad Brother code"
  else if byteAt raw 3 ≠ 0x30 then .error "Bad series code"
  else if byteAt raw 5 ≠ 0x30 then .error "Bad country code"
  else
    match PrinterStatus.getModelByDeviceCode (byteAt raw 4) with
    | none => .error "Unsupported device code"
    | some model => .ok (PrinterStatus.populate raw model)

/-- `new PrinterStatus(raw)`: `parseRaw` followed by
`deriveDimensions`. -/
def PrinterStatus.ofRaw (raw : List Nat) : Except String PStatus :=
  (PrinterStatus.parseRaw raw).map PrinterStatus.deriveDimensions

/-- `PrinterStatus.from(template)`: construct with defaults, `copy` the
template, then `deriveDimensions`. -/
def PrinterStatus.fromTemplate (t : StatusTemplate) : PStatus :=
  PrinterStatus.deriveDimensions (PrinterStatus.copy {} t)

/-- A dynamically typed JS value that is either a string or a number:
the `media_type` field of `PTouchStatus` holds the string "Unknown" (or a
template string) until `parseRaw` overwrites it with the raw byte 11. -/
inductive JSStrNum where
  | str (s : String)
  | num (n : Nat)
  deriving DecidableEq

/-- The `PTouchStatus` record (the status codec variant shipped next to
`PTouch.js`).  Constructor defaults: the numeric dimension fields start
at 0; `phase` and `status_type` are initialised from the `UNKNOWN` keys
of the frozen `Phase`/`Type` tables — keys those tables do not have, so
both start `undefined` (`none`); on success `parseRaw` stores the raw
numeric codes (`Phase`: 0 = READY, 1 = PRINTING, 2 = FEEDING).
`eject_mm` and `eject_px` are `Option` because `copy` assigns them from
template keys that the `Models.js` templates lack (JS `undefined`,
making the derived `eject_px` `NaN`). -/
structure PTStatus where
  eject_mm : Option ℚ := some 0
  raster_px : ℚ := 0
  raster_mm : ℚ := 0
  printable_width_px : ℚ := 0
  printable_width_mm : ℚ := 0
  media_type : JSStrNum := .str "Unknown"
  media_width_mm : ℚ := 0
  eject_px : Option ℚ := some 0
  pixel_width_mm : ℚ := 0
  media_width_px : ℚ := 0
  phase : Option Nat := none
  status_type : Option Nat := none
  model : Option String := none
  error_information : Option Nat := none
  deriving DecidableEq

/-- `PTouchStatus.deriveDimensions` — same derivation and narrow-tape
clamp as `PrinterStatus.deriveDimensions`; `eject_px` is `NaN` (`none`)
when `eject_mm` is `undefined`. -/
def PTouchStatus.deriveDimensions (s : PTStatus) : PTStatus :=
  let eject_px : Option ℚ :=
    s.eject_mm.map (fun e => ((⌊s.raster_px * e / s.raster_mm + 1 / 2⌋ : ℤ) : ℚ))
  let pixel_width_mm := s.raster_mm / s.raster_px
  let media_width_px := s.media_width_mm / pixel_width_mm
  let printable_width_px :=
    if media_width_px < s.printable_width_px then
      s.media_width_mm / pixel_width_mm
    else s.printable_width_px
  { s with
    eject_px := eject_px,
    pixel_width_mm := pixel_width_mm,
    media_width_px := media_width_px,
    printable_width_px := printable_width_px,
    printable_width_mm := printable_width_px * pixel_width_mm }

/-- `PTouchStatus.copy`: `for (const key of Object.keys(this)) this[key]
= status[key]` — every constructor-initialised key is assigned from the
source, keys the source lacks coming back `undefined` (`eject_mm` for
the `Models.js` templates; `eject_px`, `phase`, `status_type` always) —
followed by `deriveDimensions()`.  The numeric fields `pixel_width_mm`
and `media_width_px` are transiently `undefined` too, but
`deriveDimensions` recomputes them before anything can read them. -/
def PTouchStatus.copy (s : PTStatus) (t : StatusTemplate) : PTStatus :=
  PTouchStatus.deriveDimensions
    { s with
      eject_mm := t.eject_mm,
      raster_px := t.raster_px,
      raster_mm := t.raster_mm,
      printable_width_px := t.printable_width_px,
      printable_width_mm := t.printable_width_mm,
      media_type := .str t.media_type,
      media_width_mm := t.media_width_mm,
      eject_px := none,
      phase := none,
      status_type := none }

/-- Field population of `PTouchStatus.parseRaw` up to (but not
including) the phase switch: `copy` of the model template (every
`Models.js` entry has one, so the `if (model.defaultStatus)` guard always
holds), then the model name and the report-derived fields.  Unlike
`PrinterStatus`, `media_type` and `status_type` receive the raw numeric
codes. -/
def PTouchStatus.populate (raw : List Nat) (model : Model) : PTStatus :=
  let s1 := PTouchStatus.copy {} model.defaultStatus
  { s1 with
    model := some model.name,
    error_information :=
      if byteAt raw 8 ≠ 0 ∨ byteAt raw 9 ≠ 0 then
        some (byteAt raw 8 <<< 8 ||| byteAt raw 9)
      else s1.error_information,
    media_type := .num (byteAt raw 11),
    media_width_mm := (byteAt raw 10 : ℚ),
    status_type := some (byteAt raw 18) }

/-- `PTouchStatus.parseRaw`: the same five integrity checks as
`PrinterStatus.parseRaw`, the `Models.js` lookup, field population, and
then the strict phase switch: byte 19 = 0 gives FEEDING (2) when byte 21
= 1 and READY (0) otherwise; byte 19 = 1 requires byte 21 = 0 and gives
PRINTING (1), any other byte 21 raising "Unsupported printing state";
any other byte 19 raises "Unknown phase type". -/
def PTouchStatus.parseRaw (raw : List Nat) : Except String PTStatus :=
  if raw.length < 32 then .error "Bad report length"
  else if byteAt raw 0 ≠ 0x80 then .error "Bad print head mark"
  else if byteAt raw 2 ≠ 0x42 then .error "Bad Brother code"
  else if byteAt raw 3 ≠ 0x30 then .error "Bad series code"
  else if byteAt raw 5 ≠ 0x30 then .error "Bad country code"
  else
    match Models.getModelByDeviceCode (byteAt raw 4) with
    | none => .error "Unsupported device code"
    | some model =>
      let s2 := PTouchStatus.populate raw model
      if byteAt raw 19 = 0 then
        .ok { s2 with phase := if byteAt raw 21 = 1 then some 2 else some 0 }
      else if byteAt raw 19 = 1 then
        if byteAt raw 21 = 0 then .ok { s2 with phase := some 1 }
        else .error "Unsupported printing state"
      else .error "Unknown phase type"

/-- `new PTouchStatus(raw)`: `parseRaw` followed by
`deriveDimensions`. -/
def PTouchStatus.ofRaw (raw : List Nat) : Except String PTStatus :=
  (PTouchStatus.parseRaw raw).map PTouchStatus.deriveDimensions

/-- `PTouchStatus.from(template)`: construct with defaults and `copy`
the template (`copy` itself runs `deriveDimensions`). -/
def PTouchStatus.fromTemplate (t : StatusTemplate) : PTStatus :=
  PTouchStatus.copy {} t

/-- C9 (confirmed).  After the dimension-derivation step of any status
record — in both codec variants — if the tape is narrower than the print
head (`media_width_px < printable_width_px` at comparison time, i.e. the
freshly derived `media_width_px` against the incoming
`printable_width_px`), then `printable_width_px` is clamped to
`media_width_px`; otherwise it is unchanged; and in both cases
`printable_width_mm` is recomputed as
`printable_width_px * pixel_width_mm`. -/
theorem C9_narrow_tape_clamp :
    (∀ s : PStatus,
      (PrinterStatus.deriveDimensions s).printable_width_px
        = (if (PrinterStatus.deriveDimensions s).media_width_px
              < s.printable_width_px
           then (PrinterStatus.deriveDimensions s).media_width_px
           else s.printable_width_px)
      ∧ (PrinterStatus.deriveDimensions s).printable_width_mm
          = (PrinterStatus.deriveDimensions s).printable_width_px
              * (PrinterStatus.deriveDimensions s).pixel_width_mm)
    ∧ (∀ s : PTStatus,
      (PTouchStatus.deriveDimensions s).printable_width_px
        = (if (PTouchStatus.deriveDimensions s).media_width_px
              < s.printable_width_px
           then (PTouchStatus.deriveDimensions s).media_width_px
           else s.printable_width_px)
      ∧ (PTouchStatus.deriveDimensions s).printable_width_mm
          = (PTouchStatus.deriveDimensions s).printable_width_px
              * (PTouchStatus.deriveDimensions s).pixel_width_mm) := by
  constructor
  · intro s
    exact ⟨by simp only [PrinterStatus.deriveDimensions],
      by simp only [PrinterStatus.deriveDimensions]⟩
  · intro s
    exact ⟨by simp only [PTouchStatus.deriveDimensions],
      by simp only [PTouchStatus.deriveDimensions]⟩

/-- The nine device codes of both model tables. -/
def deviceCodes : List Nat :=
  [0x59, 0x4A, 0x64, 0x65, 0x67, 0x69, 0x70, 0x71, 0x78]

theorem PS_lookup_isSome (d : Nat) (h : d ∈ deviceCodes) :
    ∃ m, PrinterStatus.getModelByDeviceCode d = some m := by
  fin_cases h <;> exact ⟨_, rfl⟩

theorem Models_lookup_isSome (d : Nat) (h : d ∈ deviceCodes) :
    ∃ m, Models.getModelByDeviceCode d = some m := by
  fin_cases h <;> exact ⟨_, rfl⟩

/-- C1 (amended).  For every 32-byte report with marker `0x80`, the fixed
constants `0x42`/`0x30`/`0x30` at bytes 2/3/5 and a known device code at
byte 4: the `PrinterStatus` codec succeeds whatever the remaining bytes,
with `pixel_width_mm = raster_mm / raster_px` exactly and the phase
decided jointly by bytes 19/21 (byte19 = 0 with byte21 = 1 gives
"Feeding", byte19 = 0 otherwise "Receiving", byte19 = 1 "Printing");
the `PTouchStatus` codec variant, however, succeeds only when byte 19 is
0, or byte 19 is 1 with byte 21 = 0 — with the corresponding numeric
phases FEEDING/READY/PRINTING and the same `pixel_width_mm` identity —
and raises an error on every other byte 19/21 combination. -/
theorem C1_status_parse (raw : List Nat) (hlen : raw.length = 32)
    (h0 : byteAt raw 0 = 0x80) (h2 : byteAt raw 2 = 0x42)
    (h3 : byteAt raw 3 = 0x30) (h5 : byteAt raw 5 = 0x30)
    (hdev : byteAt raw 4 ∈ deviceCodes) :
    (∃ s : PStatus, PrinterStatus.ofRaw raw = .ok s
      ∧ s.pixel_width_mm = s.raster_mm / s.raster_px
      ∧ (byteAt raw 19 = 0 →
          s.phase = if byteAt raw 21 = 1 then "Feeding" else "Receiving")
      ∧ (byteAt raw 19 = 1 → s.phase = "Printing"))
    ∧ ((byteAt raw 19 = 0 ∨ (byteAt raw 19 = 1 ∧ byteAt raw 21 = 0)) →
        ∃ t : PTStatus, PTouchStatus.ofRaw raw = .ok t
          ∧ t.pixel_width_mm = t.raster_mm / t.raster_px
          ∧ (byteAt raw 19 = 0 →
              t.phase = some (if byteAt raw 21 = 1 then 2 else 0))
          ∧ (byteAt raw 19 = 1 → t.phase = some 1))
    ∧ (¬(byteAt raw 19 = 0 ∨ (byteAt raw 19 = 1 ∧ byteAt raw 21 = 0)) →
        ∃ e, PTouchStatus.ofRaw raw = .error e) := by
  have hnlt : ¬ raw.length < 32 := by omega
  refine ⟨?_, ?_, ?_⟩
  · obtain ⟨m, hm⟩ := PS_lookup_isSome _ hdev
    refine ⟨PrinterStatus.deriveDimensions (PrinterStatus.populate raw m),
      ?_, ?_, ?_, ?_⟩
    · simp [PrinterStatus.ofRaw, PrinterStatus.parseRaw, Except.map, hnlt,
        h0, h2, h3, h5, hm]
    · simp only [PrinterStatus.deriveDimensions]
    · intro h19
      simp [PrinterStatus.deriveDimensions, PrinterStatus.populate,
        PS_phaseUpdate, h19]
    · intro h19
      simp [PrinterStatus.deriveDimensions, PrinterStatus.populate,
        PS_phaseUpdate, h19]
  · rintro (h19 | ⟨h19, h21⟩)
    · obtain ⟨m, hm⟩ := Models_lookup_isSome _ hdev
      refine ⟨PTouchStatus.deriveDimensions
        { PTouchStatus.populate raw m with
          phase := if byteAt raw 21 = 1 then some 2 else some 0 },
        ?_, ?_, ?_, ?_⟩
      · simp [PTouchStatus.ofRaw, PTouchStatus.parseRaw, Except.map, hnlt,
          h0, h2, h3, h5, hm, h19]
      · simp only [PTouchStatus.deriveDimensions]
      · intro _
        simp only [PTouchStatus.deriveDimensions]
        split_ifs <;> rfl
      · intro h19'
        rw [h19] at h19'
        exact absurd h19' (by decide)
    · obtain ⟨m, hm⟩ := Models_lookup_isSome _ hdev
      refine ⟨PTouchStatus.deriveDimensions
        { PTouchStatus.populate raw m with phase := some 1 },
        ?_, ?_, ?_, ?_⟩
      · simp [PTouchStatus.ofRaw, PTouchStatus.parseRaw, Except.map, hnlt,
          h0, h2, h3, h5, hm, h19, h21]
      · simp only [PTouchStatus.deriveDimensions]
      · intro h19'
        rw [h19] at h19'
        exact absurd h19' (by decide)
      · intro _
        simp only [PTouchStatus.deriveDimensions]
  · intro hfail
    push_neg at hfail
    obtain ⟨h19ne0, himp⟩ := hfail
    obtain ⟨m, hm⟩ := Models_lookup_isSome _ hdev
    by_cases h19 : byteAt raw 19 = 1
    · have h21 : byteAt raw 21 ≠ 0 := himp h19
      exact ⟨"Unsupported printing state",
        by simp [PTouchStatus.ofRaw, PTouchStatus.parseRaw, Except.map,
          hnlt, h0, h2, h3, h5, hm, h19ne0, h19, h21]⟩
    · exact ⟨"Unknown phase type",
        by simp [PTouchStatus.ofRaw, PTouchStatus.parseRaw, Except.map,
          hnlt, h0, h2, h3, h5, hm, h19ne0, h19]⟩

/-- The 32-byte status report fixture used by `PTouchStub` (device code
`0x59` = PT1230, 12 mm laminated tape, phase bytes 19/21 both zero). -/
def STATUS_REPORT : List Nat :=
  [0x80, 0x20, 0x42, 0x30, 0x59, 0x30, 0x00, 0x00,
   0x00, 0x00, 0x0c, 0x01, 0x00, 0x00, 0x00, 0x00,
   0x00, 0x00, 0x00, 0x00, 0x00, 0x00, 0x00, 0x00,
   0x00, 0x00, 0x00, 0x00, 0x00, 0x00, 0x00, 0x00]

/-- C1 witness: the parse theorem applied to the concrete `PTouchStub`
status fixture. -/
theorem C1_status_parse_witness :
    (∃ s : PStatus, PrinterStatus.ofRaw STATUS_REPORT = .ok s
      ∧ s.pixel_width_mm = s.raster_mm / s.raster_px
      ∧ (byteAt STATUS_REPORT 19 = 0 →
          s.phase = if byteAt STATUS_REPORT 21 = 1 then "Feeding"
            else "Receiving")
      ∧ (byteAt STATUS_REPORT 19 = 1 → s.phase = "Printing"))
    ∧ ((byteAt STATUS_REPORT 19 = 0
        ∨ (byteAt STATUS_REPORT 19 = 1 ∧ byteAt STATUS_REPORT 21 = 0)) →
        ∃ t : PTStatus, PTouchStatus.ofRaw STATUS_REPORT = .ok t
          ∧ t.pixel_width_mm = t.raster_mm / t.raster_px
          ∧ (byteAt STATUS_REPORT 19 = 0 →
              t.phase = some (if byteAt STATUS_REPORT 21 = 1 then 2 else 0))
          ∧ (byteAt STATUS_REPORT 19 = 1 → t.phase = some 1))
    ∧ (¬(byteAt STATUS_REPORT 19 = 0
        ∨ (byteAt STATUS_REPORT 19 = 1 ∧ byteAt STATUS_REPORT 21 = 0)) →
        ∃ e, PTouchStatus.ofRaw STATUS_REPORT = .error e) :=
  C1_status_parse STATUS_REPORT (by decide) (by decide) (by decide)
    (by decide) (by decide) (by decide)

/-- A 32-byte report satisfying every premise of the claim (marker,
constants, known device code) whose byte 19 is 2. -/
def C1_badReport : List Nat :=
  [0x80, 0x20, 0x42, 0x30, 0x59, 0x30, 0x00, 0x00,
   0x00, 0x00, 0x0c, 0x01, 0x00, 0x00, 0x00, 0x00,
   0x00, 0x00, 0x00, 0x02, 0x00, 0x00, 0x00, 0x00,
   0x00, 0x00, 0x00, 0x00, 0x00, 0x00, 0x00, 0x00]

/-- C1 counterexample to the claim as stated: a 32-byte report with
marker `0x80`, the three fixed constants in place and the known device
code `0x59`, whose remaining bytes include byte 19 = 2 — yet the
`PTouchStatus.parseRaw` cited by the claim raises "Unknown phase type"
instead of succeeding. -/
theorem C1_counterexample :
    C1_badReport.length = 32
    ∧ byteAt C1_badReport 0 = 0x80
    ∧ byteAt C1_badReport 2 = 0x42
    ∧ byteAt C1_badReport 3 = 0x30
    ∧ byteAt C1_badReport 5 = 0x30
    ∧ byteAt C1_badReport 4 ∈ deviceCodes
    ∧ PTouchStatus.ofRaw C1_badReport = .error "Unknown phase type" :=
  ⟨rfl, rfl, rfl, rfl, rfl, by decide, rfl⟩

/-! ## Printer driver (`PTouch.js`, with the `part_003` variant)

Byte constants of the `Commands` table. -/

def Commands.INVALIDATE : Nat := 0x00
def Commands.PRINT_FEED : Nat := 0x1A
def Commands.PRINT_NOFEED : Nat := 0x0C
def Commands.RASTER_DATA : Nat := 0x47
def Commands.EMPTY_RASTER : Nat := 0x5A
def Commands.INITIALISE_CLEAR : List Nat := [0x1B, 0x40]
def Commands.SEND_STATUS : List Nat := [0x1B, 0x69, 0x53]
def Commands.COMPRESSION : List Nat := [0x4D]
def Commands.SET_TRANSFER_MODE : List Nat := [0x1B, 0x69, 0x52]

/-- The value stored by `buff[buff.length - 1] = Commands.INITIALISE_CLEAR`
in the current `PTouch.reset`: `INITIALISE_CLEAR` is the two-element
ARRAY `[0x1B, 0x40]`, and a `Uint8Array` element assignment coerces it
with ToNumber — the array stringifies to "27,64", which is not numeric,
so ToNumber gives NaN and ToUint8(NaN) stores 0. -/
def initialiseClearCoerced : Nat := 0

/-- The bytes written by `PTouch.reset` of the current `PTouch.js`:
a 200-byte `Uint8Array` filled with `INVALIDATE`, whose LAST byte is
then overwritten with the coerced `INITIALISE_CLEAR` value.  Nothing
else is written by `reset`. -/
def PTouch.reset_bytes : List Nat :=
  (List.replicate 200 Commands.INVALIDATE).set 199 initialiseClearCoerced

/-- The reset write of the older driver variant (the `reset()` in the
second document of `PrinterStatus.js`):
`write([ ...INVALIDATE, ...INITIALISE_CLEAR ])` — the spread makes these
two genuine command bytes after the 200 filler bytes. -/
def PTouch.resetOld_bytes : List Nat :=
  List.replicate 200 Commands.INVALIDATE ++ Commands.INITIALISE_CLEAR

/-- C4: the current `reset` writes 200 `0x00` bytes and never the
`InitialiseClear` bytes `0x1B 0x40` — the array-into-`Uint8Array` slot
assignment silently stores 0 (and would in any case have overwritten the
200th filler rather than appended).  The older variant wrote the
sequence the claim (and the repository's own test) describes. -/
theorem set_replicate_self {α : Type} (n i : Nat) (a : α) :
    (List.replicate n a).set i a = List.replicate n a := by
  induction n generalizing i with
  | zero => rfl
  | succ n ih => cases i <;> simp [List.replicate_succ, List.set, ih]

theorem C4_reset_sequence :
    PTouch.reset_bytes = List.replicate 200 0x00
    ∧ PTouch.reset_bytes ≠ List.replicate 200 0x00 ++ [0x1B, 0x40]
    ∧ PTouch.resetOld_bytes = List.replicate 200 0x00 ++ [0x1B, 0x40] := by
  have h1 : PTouch.reset_bytes = List.replicate 200 0x00 := by
    rw [PTouch.reset_bytes, initialiseClearCoerced, Commands.INVALIDATE,
      set_replicate_self]
  refine ⟨h1, ?_, rfl⟩
  rw [h1]
  intro h
  have hlen := congrArg List.length h
  rw [List.length_append] at hlen
  simp only [List.length_cons, List.length_nil] at hlen
  omega

/-- Driver state relevant to `eject`: the `initialised` flag, the
(integer) `status.eject_px` of the cached status, and the bytes written
to the device channel so far. -/
structure PTState where
  initialised : Bool
  eject_px : Nat
  written : List Nat
  deriving DecidableEq

/-- The buffer built by `PTouch.eject`:
`Buffer.alloc(this.status.eject_px + 1, Commands.EMPTY_RASTER)` with the
last byte overwritten by `PRINT_NOFEED`. -/
def ejectBuffer (eject_px : Nat) : List Nat :=
  (List.replicate (eject_px + 1) Commands.EMPTY_RASTER).set eject_px
    Commands.PRINT_NOFEED

/-- `PTouch.eject`: writes `ejectBuffer` to the channel.  It takes no
raster-count argument (`Server.js` calls `eject()`; the pixel count the
older HTTP layer passed is ignored), and it neither checks nor sets
`initialised` — there is no `initialise()` call in its body. -/
def PTouch.eject (s : PTState) : PTState :=
  { s with written := s.written ++ ejectBuffer s.eject_px }

theorem ejectBuffer_eq (n : Nat) :
    ejectBuffer n
      = List.replicate n Commands.EMPTY_RASTER ++ [Commands.PRINT_NOFEED] := by
  induction n with
  | zero => rfl
  | succ n ih =>
    have h : ejectBuffer (n + 1)
        = Commands.EMPTY_RASTER :: ejectBuffer n := by
      simp [ejectBuffer, List.replicate_succ]
    rw [h, ih, List.replicate_succ]
    rfl

/-- C3 (amended).  `eject` writes to the device channel exactly
`status.eject_px` `EmptyRaster` (`0x5A`) bytes followed by one
`PrintNoFeed` (`0x0C`) byte and nothing else; the raster count is the
driver's own `eject_px`, not a caller-supplied `n`; and `eject` does not
itself ensure initialisation — the `initialised` flag (and everything
else in the state) is untouched. -/
theorem C3_eject (s : PTState) :
    (PTouch.eject s).written
      = s.written ++ (List.replicate s.eject_px 0x5A ++ [0x0C])
    ∧ (PTouch.eject s).initialised = s.initialised
    ∧ (PTouch.eject s).eject_px = s.eject_px := by
  refine ⟨?_, rfl, rfl⟩
  rw [PTouch.eject, ejectBuffer_eq]
  rfl

/-- C3 counterexample to the claim as stated, at the concrete driver
state (uninitialised, PT1230 `eject_px` 142, nothing written) with
requested count `n = 3`: `eject` neither leaves the driver initialised
nor writes 3 `EmptyRaster` bytes. -/
theorem C3_counterexample :
    (PTouch.eject ⟨false, 142, []⟩).initialised = false
    ∧ (PTouch.eject ⟨false, 142, []⟩).written
        ≠ List.replicate 3 0x5A ++ [0x0C] := by
  exact ⟨rfl, by decide⟩

/-- Result of one scheduled `pollStatus` callback once its `read()` has
delivered `reply`: the final accumulator (`this.statusBlock`), the
cached status, the statuses emitted via `PRINTER_STATE_CHANGE`, and
whether `setTimeout` was reached to reschedule the next poll.
`rescheduled = false` exactly when the `PrinterStatus` constructor threw
out of the callback: nothing catches it, so the promise rejects, the
accumulator keeps the block, and the loop is never rescheduled. -/
structure PollResult where
  statusBlock : List Nat
  status : PStatus
  emitted : List PStatus
  rescheduled : Bool
  deriving DecidableEq

/-- The byte-processing `while` loop of `pollStatus` in the current
`PTouch.js`.  Inside an accumulation every byte is appended and at
32 bytes the block is parsed: on success the cached status is replaced,
the accumulator cleared and the status emitted; on a parse error the
exception propagates.  Outside an accumulation a byte starts a new
accumulation iff it is NONZERO (`reply.buffer[i] !== 0` — not a
0x80-marker test); zero bytes are discarded.  (The `readingStatus = true`
flag set at that point is never read anywhere and is omitted.) -/
def pollLoop : List Nat → List Nat → PStatus → List PStatus → PollResult
  | [], sb, st, ev => ⟨sb, st, ev, true⟩
  | b :: bs, sb, st, ev =>
    if sb.length > 0 then
      if (sb ++ [b]).length = 32 then
        match PrinterStatus.ofRaw (sb ++ [b]) with
        | .ok st' => pollLoop bs [] st' (ev ++ [st'])
        | .error _ => ⟨sb ++ [b], st, ev, false⟩
      else pollLoop bs (sb ++ [b]) st ev
    else if b ≠ 0 then pollLoop bs [b] st ev
    else pollLoop bs sb st ev

/-- One `pollStatus` iteration of the current `PTouch.js` on the bytes
delivered by `read()`. -/
def pollStatusIteration (reply sb : List Nat) (st : PStatus) : PollResult :=
  pollLoop reply sb st []

/-- Result record for the `part_003` `pollStatus` variant (which parses
with `PTouchStatus`). -/
structure PollResult3 where
  statusBlock : List Nat
  status : PTStatus
  emitted : List PTStatus
  rescheduled : Bool
  deriving DecidableEq

/-- The byte-processing loop of `pollStatus` in the `part_003` driver
variant: identical to the current one except that an accumulation starts
only on the `PRINT_HEAD_MARK` byte `0x80`, and parsing uses
`PTouchStatus`. -/
def pollLoop3 : List Nat → List Nat → PTStatus → List PTStatus → PollResult3
  | [], sb, st, ev => ⟨sb, st, ev, true⟩
  | b :: bs, sb, st, ev =>
    if sb.length > 0 then
      if (sb ++ [b]).length = 32 then
        match PTouchStatus.ofRaw (sb ++ [b]) with
        | .ok st' => pollLoop3 bs [] st' (ev ++ [st'])
        | .error _ => ⟨sb ++ [b], st, ev, false⟩
      else pollLoop3 bs (sb ++ [b]) st ev
    else if b = 0x80 then pollLoop3 bs [b] st ev
    else pollLoop3 bs sb st ev

/-- One `pollStatus` iteration of the `part_003` variant. -/
def pollStatusIteration3 (reply sb : List Nat) (st : PTStatus) : PollResult3 :=
  pollLoop3 reply sb st []

/-- C5: evaluation of the poll loop at a failing input.  A read
delivering a 32-byte block that begins with the marker `0x80` but fails
the Brother-code check (byte 2 is 0): the accumulator starts on the
marker, fills to 32 bytes, the parse throws — and the iteration ends
with the 32-byte block still in the accumulator, the cached status
unchanged, nothing emitted, and NO reschedule of the next poll (the
exception escapes the `.then` callback, nothing catches it, and
`setTimeout` is never reached), in both the current driver and the
`part_003` variant.  The claim's tolerated-and-continue behaviour is
exactly what does not happen. -/
theorem C5_poll_parse_failure :
    (∀ st : PStatus,
      pollStatusIteration (0x80 :: List.replicate 31 0) [] st
        = ⟨0x80 :: List.replicate 31 0, st, [], false⟩)
    ∧ (∀ st : PTStatus,
      pollStatusIteration3 (0x80 :: List.replicate 31 0) [] st
        = ⟨0x80 :: List.replicate 31 0, st, [], false⟩) :=
  ⟨fun _ => rfl, fun _ => rfl⟩

/-- C6 (amended).  In the current driver the accumulator begins
accumulating on ANY nonzero byte seen outside an in-progress
accumulation — the letter-box is not restricted to the `0x80` marker;
only zero bytes are discarded.  (In the earlier `part_003` variant the
accumulation indeed begins only upon the marker `0x80`, every non-marker
byte outside an accumulation being discarded.)  In both, bytes inside an
in-progress accumulation are appended, and on reaching exactly 32 bytes
the block is parsed — the accumulator being cleared when the parse
succeeds (a failing parse keeps it, see the poll-failure theorem). -/
theorem C6_accumulator (st : PStatus) (st3 : PTStatus) (sb : List Nat)
    (b : Nat) :
    (b ≠ 0 → pollStatusIteration [b] [] st = ⟨[b], st, [], true⟩)
    ∧ (pollStatusIteration [0] [] st = ⟨[], st, [], true⟩)
    ∧ (sb.length > 0 → sb.length + 1 ≠ 32 →
        pollStatusIteration [b] sb st = ⟨sb ++ [b], st, [], true⟩)
    ∧ (sb.length = 31 →
        ∀ st' : PStatus, PrinterStatus.ofRaw (sb ++ [b]) = .ok st' →
          pollStatusIteration [b] sb st = ⟨[], st', [st'], true⟩)
    ∧ (b ≠ 0x80 → pollStatusIteration3 [b] [] st3 = ⟨[], st3, [], true⟩)
    ∧ (pollStatusIteration3 [0x80] [] st3 = ⟨[0x80], st3, [], true⟩) := by
  refine ⟨?_, rfl, ?_, ?_, ?_, rfl⟩
  · intro hb
    simp [pollStatusIteration, pollLoop, hb]
  · intro hpos hne
    simp [pollStatusIteration, pollLoop, hpos, hne]
  · intro hlen31 st' hok
    have hpos : sb.length > 0 := by omega
    have hlen : sb.length + 1 = 32 := by omega
    simp [pollStatusIteration, pollLoop, hpos, hlen, hok]
  · intro hb
    simp [pollStatusIteration3, pollLoop3, hb]

/-- C6 counterexample to the claim as stated: in the current driver a
byte that is not the `0x80` marker (here `0x01`), seen outside any
in-progress accumulation, is NOT discarded — it starts a new
accumulation. -/
theorem C6_counterexample :
    (pollStatusIteration [0x01] [] {}).statusBlock = [0x01]
    ∧ (0x01 : Nat) ≠ 0x80 :=
  ⟨rfl, by decide⟩

/-- The status parsed from the `STATUS_REPORT` fixture by the
`PrinterStatus` codec. -/
def STATUS_REPORT_status : PStatus :=
  PrinterStatus.deriveDimensions (PrinterStatus.populate STATUS_REPORT
    ⟨0x59, "PT1230", some PT1230_defaultStatus⟩)

/-- C6 witness: each accumulator property evaluated at concrete inputs —
a nonzero non-marker byte starting an accumulation, a zero byte being
discarded, a mid-accumulation append, a 32-byte completion parsed and
cleared, and the marker-only behaviour of the `part_003` variant. -/
theorem C6_accumulator_witness :
    pollStatusIteration [0x01] [] {} = ⟨[0x01], {}, [], true⟩
    ∧ pollStatusIteration [0] [] {} = ⟨[], {}, [], true⟩
    ∧ pollStatusIteration [0x20] [0x80] {} = ⟨[0x80, 0x20], {}, [], true⟩
    ∧ pollStatusIteration [0] (STATUS_REPORT.take 31) {}
        = ⟨[], STATUS_REPORT_status, [STATUS_REPORT_status], true⟩
    ∧ pollStatusIteration3 [0x01] [] {} = ⟨[], {}, [], true⟩
    ∧ pollStatusIteration3 [0x80] [] {} = ⟨[0x80], {}, [], true⟩ :=
  ⟨(C6_accumulator {} {} [] 0x01).1 (by decide),
   (C6_accumulator {} {} [] 0).2.1,
   (C6_accumulator {} {} [0x80] 0x20).2.2.1 (by decide) (by decide),
   (C6_accumulator {} {} (STATUS_REPORT.take 31) 0).2.2.2.1 (by decide)
     STATUS_REPORT_status rfl,
   (C6_accumulator {} {} [] 0x01).2.2.2.2.1 (by decide),
   (C6_accumulator {} {} [] 0x80).2.2.2.2.2⟩

/-! ## Raster encoder (`PTouch.printImage`)

The encoder walks the image in tape runs of at most
`printable_width_px` columns; within a run it emits rows from the last
image row to the first, packing `padding` blank bits and then the run's
pixels MSB-first into a `byte_count`-byte buffer, where
`padding = (raster_px - printable_width_px) / 2` and
`byte_count = (padding + printable_width_px) / 8` are computed from the
full printable width — never from the (possibly narrower) run width. -/

/-- `isBlack` of `printImage`: the alpha byte of the RGBA pixel is
nonzero.  A read past the buffer is `undefined`, and `undefined > 0` is
false, which `getD` with default 0 reproduces. -/
def isBlack (image : List Nat) (width x y : Nat) : Bool :=
  image.getD ((y * width + x) * 4 + 3) 0 > 0

/-- Loop state of the row-packing loops: the raster buffer, the index
`raster_byte`, the bit cursor (7 = MSB), the byte being packed, and the
`empty` flag. -/
structure RowState where
  raster : List Nat
  rb : Nat
  bit : Nat
  byte : Nat
  empty : Bool
  deriving DecidableEq

/-- One iteration of the padding loop: `if (--bit < 0) { raster_byte++;
bit = 7; }` (the pair is `(raster_byte, bit)`). -/
def padStep : Nat × Nat → Nat × Nat
  | (rb, bit) => if bit = 0 then (rb + 1, 7) else (rb, bit - 1)

/-- One iteration of the pixel-packing loop at column `x` of the current
run: a black pixel ORs `1 << bit` into the byte and clears `empty`; when
the byte fills (`--bit < 0`) it is stored at `raster_byte` and the
cursor resets.  `List.set` past the end is a no-op, exactly like an
out-of-range `Uint8Array` store. -/
def rowStep (image : List Nat) (width offset y : Nat) (s : RowState)
    (x : Nat) : RowState :=
  let black := isBlack image width (offset + x) y
  let byte := if black then s.byte ||| (1 <<< s.bit) else s.byte
  let empty := if black then false else s.empty
  if s.bit = 0 then
    ⟨s.raster.set s.rb byte, s.rb + 1, 7, 0, empty⟩
  else
    ⟨s.raster, s.rb, s.bit - 1, byte, empty⟩

/-- One row of `printImage`: zero the `byte_count`-byte raster buffer,
run the padding loop from `(0, 7)`, pack `printwidth` pixels starting at
column `offset`, and store the final partial byte
(`raster[raster_byte++] = byte`).  Returns the packed buffer and the
`empty` flag. -/
def packRow (image : List Nat)
    (width offset printwidth y padding byte_count : Nat) : List Nat × Bool :=
  let pad := (List.range padding).foldl (fun s _ => padStep s) (0, 7)
  let s := (List.range printwidth).foldl (rowStep image width offset y)
    ⟨List.replicate byte_count 0, pad.1, pad.2, 0, true⟩
  (s.raster.set s.rb s.byte, s.empty)

/-- The bytes pushed for one row: `EMPTY_RASTER` when no mark bit was
packed, else `RASTER_DATA`, the little-endian length pair
`byte_count % 256, Math.floor(byte_count / 256)`, and the raster
buffer. -/
def rowBytes (image : List Nat)
    (width offset printwidth y padding byte_count : Nat) : List Nat :=
  if (packRow image width offset printwidth y padding byte_count).2 then
    [Commands.EMPTY_RASTER]
  else
    Commands.RASTER_DATA :: byte_count % 256 :: byte_count / 256
      :: (packRow image width offset printwidth y padding byte_count).1

/-- The bytes pushed for one tape run: the rows from `height - 1` down
to `0`, then `label_gap_px` empty rasters (`this.status.label_gap_px` is
never assigned anywhere in the repository, so the loop bound is
`undefined` and the loop body never runs — gap 0), then
`PRINT_NOFEED`. -/
def runBytes (image : List Nat)
    (width height offset printwidth padding byte_count gap : Nat) : List Nat :=
  ((List.range height).reverse.map
    (fun y => rowBytes image width offset printwidth y padding byte_count)).flatten
  ++ List.replicate gap Commands.EMPTY_RASTER
  ++ [Commands.PRINT_NOFEED]

/-- The tape-run split (`while (offset < width)` with
`printwidth = printable_width_px`, truncated to `width - offset` on the
last run), fuelled: each iteration advances `offset` by at least one
column when `printable_width_px > 0`, so fuel `width` suffices.  (With
`printable_width_px = 0` the JS loop would never terminate; the fuel
then runs out, a configuration no claim exercises.) -/
def tapeRunsAux : Nat → Nat → Nat → Nat → List (Nat × Nat)
  | 0, _, _, _ => []
  | fuel + 1, pw, width, offset =>
    if offset < width then
      (offset, if offset + pw > width then width - offset else pw)
        :: tapeRunsAux fuel pw width
            (offset + if offset + pw > width then width - offset else pw)
    else []

/-- The tape runs of an image of the given width, as
`(offset, printwidth)` pairs. -/
def tapeRuns (pw width : Nat) : List (Nat × Nat) :=
  tapeRunsAux width pw width 0

/-- The full byte buffer built by `printImage` (current `PTouch.js`: the
buffer starts empty, the compression and transfer-mode commands having
moved to `initialise`): the concatenated tape runs, with
`padding = (raster_px - printable_width_px) / 2` and
`byte_count = (padding + printable_width_px) / 8` computed once from
the full printable width. -/
def printImageBytes (image : List Nat) (width height raster_px pw : Nat)
    (label_gap_px : Option Nat) : List Nat :=
  ((tapeRuns pw width).map (fun r =>
    runBytes image width height r.1 r.2 ((raster_px - pw) / 2)
      (((raster_px - pw) / 2 + pw) / 8) (label_gap_px.getD 0))).flatten

theorem rowStep_raster_length (image : List Nat) (width offset y : Nat)
    (s : RowState) (x : Nat) :
    (rowStep image width offset y s x).raster.length = s.raster.length := by
  simp only [rowStep]
  split <;> simp [List.length_set]

theorem foldl_rowStep_raster_length (image : List Nat) (width offset y : Nat) :
    ∀ (xs : List Nat) (s : RowState),
      ((xs.foldl (rowStep image width offset y) s)).raster.length
        = s.raster.length := by
  intro xs
  induction xs with
  | nil => intro s; rfl
  | cons x xs ih =>
    intro s
    rw [List.foldl_cons, ih, rowStep_raster_length]

theorem packRow_length (image : List Nat)
    (width offset printwidth y padding byte_count : Nat) :
    (packRow image width offset printwidth y padding byte_count).1.length
      = byte_count := by
  simp only [packRow, List.length_set, foldl_rowStep_raster_length,
    List.length_replicate]

/-- C10 (confirmed).  Every row the encoder emits as a `RasterRow`
carries a payload of exactly `byte_count` bytes — `packRow`'s buffer
length is `byte_count` whatever the image, run offset and run width —
and the two pushed length bytes `byte_count % 256` and
`⌊byte_count / 256⌋` recombine little-endian to exactly `byte_count`.
In `printImageBytes`, `byte_count` is instantiated for every run to
`((raster_px - printable_width_px) / 2 + printable_width_px) / 8`, which
does not mention the run's own (possibly narrower) width: rows of the
final run are zero-padded to the same fixed byte count. -/
theorem C10_raster_row_payload (image : List Nat)
    (width offset printwidth y padding byte_count : Nat) :
    (packRow image width offset printwidth y padding byte_count).1.length
      = byte_count
    ∧ rowBytes image width offset printwidth y padding byte_count
        = (if (packRow image width offset printwidth y padding byte_count).2
           then [Commands.EMPTY_RASTER]
           else Commands.RASTER_DATA :: byte_count % 256 :: byte_count / 256
             :: (packRow image width offset printwidth y padding byte_count).1)
    ∧ byte_count % 256 + 256 * (byte_count / 256) = byte_count := by
  refine ⟨packRow_length image width offset printwidth y padding byte_count,
    rfl, by omega⟩

theorem foldl_rowStep_empty (image : List Nat) (width offset y : Nat)
    (hblank : ∀ x y, isBlack image width x y = false) :
    ∀ (xs : List Nat) (s : RowState), s.empty = true →
      ((xs.foldl (rowStep image width offset y) s)).empty = true := by
  intro xs
  induction xs with
  | nil => intro s hs; exact hs
  | cons x xs ih =>
    intro s hs
    rw [List.foldl_cons]
    apply ih
    simp only [rowStep, hblank (offset + x) y]
    split <;> simpa

theorem packRow_empty_of_blank (image : List Nat)
    (width offset printwidth y padding byte_count : Nat)
    (hblank : ∀ x y, isBlack image width x y = false) :
    (packRow image width offset printwidth y padding byte_count).2 = true := by
  simp only [packRow]
  exact foldl_rowStep_empty image width offset y hblank _ _ rfl

theorem rowBytes_of_blank (image : List Nat)
    (width offset printwidth y padding byte_count : Nat)
    (hblank : ∀ x y, isBlack image width x y = false) :
    rowBytes image width offset printwidth y padding byte_count
      = [Commands.EMPTY_RASTER] := by
  rw [rowBytes,
    if_pos (packRow_empty_of_blank image width offset printwidth y padding
      byte_count hblank)]

theorem flatten_replicate_singleton {α : Type} (n : Nat) (a : α) :
    (List.replicate n [a]).flatten = List.replicate n a := by
  induction n with
  | zero => rfl
  | succ n ih => simp [List.replicate_succ, ih]

/-- C7 (confirmed).  For every image in which no pixel has alpha greater
than zero, of any width and height, the encoder produces per tape run
exactly one `EmptyRaster` per image row followed by one `PrintNoFeed`,
and no `RasterRow` at all.  The label-gap count is `none` because
`status.label_gap_px` is assigned nowhere in the repository, so the gap
loop never runs. -/
theorem C7_blank_image (image : List Nat) (width height raster_px pw : Nat)
    (hblank : ∀ x y, isBlack image width x y = false) :
    printImageBytes image width height raster_px pw none
      = ((tapeRuns pw width).map (fun _ =>
          List.replicate height Commands.EMPTY_RASTER
            ++ [Commands.PRINT_NOFEED])).flatten := by
  unfold printImageBytes
  refine congrArg List.flatten (List.map_congr_left ?_)
  intro r _
  unfold runBytes
  rw [List.map_congr_left
    (fun y _ => rowBytes_of_blank image width r.1 r.2 y ((raster_px - pw) / 2)
      (((raster_px - pw) / 2 + pw) / 8) hblank)]
  simp [flatten_replicate_singleton]

/-- C7 witness: a 16 × 2 all-transparent image (the empty RGBA buffer
reads as alpha 0 everywhere) against the PT1230 dimensions encodes to
two `EmptyRaster` bytes and a `PrintNoFeed`. -/
theorem C7_blank_image_witness :
    printImageBytes [] 16 2 128 64 none = [0x5A, 0x5A, 0x0C] :=
  (C7_blank_image [] 16 2 128 64 (fun _ _ => rfl)).trans (by decide)

/-- A run list `tiles` the interval from `start` to `stop` when the runs
are consecutive (each offset is the previous offset plus the previous
width), every width is positive, and they end exactly at `stop`. -/
def tiles : List (Nat × Nat) → Nat → Nat → Prop
  | [], start, stop => start = stop
  | (o, w) :: rest, start, stop => o = start ∧ 0 < w ∧ tiles rest (start + w) stop

instance tilesDecidable :
    (l : List (Nat × Nat)) → (s t : Nat) → Decidable (tiles l s t)
  | [], s, t => by unfold tiles; infer_instance
  | (o, w) :: rest, s, t => by
      unfold tiles
      have := tilesDecidable rest (s + w) t
      infer_instance

theorem tapeRunsAux_stop (fuel pw width offset : Nat) (h : ¬ offset < width) :
    tapeRunsAux fuel pw width offset = [] := by
  cases fuel <;> simp [tapeRunsAux, h]

theorem tapeRunsAux_tiles (pw : Nat) (hpw : 0 < pw) :
    ∀ (fuel width offset : Nat), width - offset ≤ fuel → offset ≤ width →
      tiles (tapeRunsAux fuel pw width offset) offset width
      ∧ ∀ r ∈ tapeRunsAux fuel pw width offset,
          0 < r.2 ∧ r.2 ≤ pw ∧ (r.2 = pw ∨ r.1 + r.2 = width) := by
  intro fuel
  induction fuel with
  | zero =>
    intro width offset hf ho
    have heq : offset = width := by omega
    rw [tapeRunsAux_stop _ _ _ _ (by omega)]
    exact ⟨heq, by simp⟩
  | succ fuel ih =>
    intro width offset hf ho
    by_cases h : offset < width
    · have hstep : tapeRunsAux (fuel + 1) pw width offset
          = (offset, if offset + pw > width then width - offset else pw)
            :: tapeRunsAux fuel pw width
                (offset + if offset + pw > width then width - offset else pw) := by
        simp [tapeRunsAux, h]
      have hw'pos : 0 < (if offset + pw > width then width - offset else pw) := by
        split_ifs <;> omega
      have hw'le : offset + (if offset + pw > width then width - offset else pw)
          ≤ width := by
        split_ifs with hc
        · omega
        · omega
      obtain ⟨iht, ihb⟩ := ih width
        (offset + if offset + pw > width then width - offset else pw)
        (by omega) hw'le
      rw [hstep]
      refine ⟨⟨rfl, hw'pos, iht⟩, ?_⟩
      intro r hr
      rcases List.mem_cons.mp hr with rfl | hr
      · refine ⟨hw'pos, ?_, ?_⟩
        · simp only
          split_ifs <;> omega
        · simp only
          split_ifs with hc
          · right; omega
          · left; rfl
      · exact ihb r hr
    · rw [tapeRunsAux_stop _ _ _ _ h]
      exact ⟨by simp [tiles]; omega, by simp⟩

theorem tapeRunsAux_go (fuel pw width offset : Nat) (h : offset < width) :
    tapeRunsAux (fuel + 1) pw width offset
      = (offset, if offset + pw > width then width - offset else pw)
        :: tapeRunsAux fuel pw width
            (offset + if offset + pw > width then width - offset else pw) := by
  simp [tapeRunsAux, h]

theorem tapeRuns_two_and_half (k : Nat) (hk : 0 < k) :
    tapeRuns (2 * k) (5 * k) = [(0, 2 * k), (2 * k, 2 * k), (4 * k, k)] := by
  obtain ⟨m, rfl⟩ : ∃ m, k = m + 1 := ⟨k - 1, by omega⟩
  show tapeRunsAux (5 * m + 4 + 1) (2 * m + 2) (5 * m + 5) 0
    = [(0, 2 * m + 2), (2 * m + 2, 2 * m + 2), (4 * m + 4, m + 1)]
  rw [tapeRunsAux_go _ _ _ _ (by omega : (0 : Nat) < 5 * m + 5),
    if_neg (by omega : ¬ (0 + (2 * m + 2) > 5 * m + 5)), Nat.zero_add,
    show (5 * m + 4 : Nat) = 5 * m + 3 + 1 from rfl,
    tapeRunsAux_go _ _ _ _ (by omega : 2 * m + 2 < 5 * m + 5),
    if_neg (by omega : ¬ (2 * m + 2 + (2 * m + 2) > 5 * m + 5)),
    show (2 * m + 2) + (2 * m + 2) = 4 * m + 4 from by ring,
    show (5 * m + 3 : Nat) = 5 * m + 2 + 1 from rfl,
    tapeRunsAux_go _ _ _ _ (by omega : 4 * m + 4 < 5 * m + 5),
    if_pos (by omega : 4 * m + 4 + (2 * m + 2) > 5 * m + 5),
    show (5 * m + 5) - (4 * m + 4) = m + 1 from by omega,
    show (4 * m + 4) + (m + 1) = 5 * m + 5 from by ring,
    tapeRunsAux_stop _ _ _ _ (by omega : ¬ (5 * m + 5 < 5 * m + 5))]

theorem append_singleton_getLast? {α : Type} (l : List α) (a : α) :
    (l ++ [a]).getLast? = some a := by
  rw [List.getLast?_append_cons]
  rfl

/-- C8 (confirmed).  `printImage` splits the image into consecutive
horizontal tape runs, each of positive width at most
`printable_width_px`, tiling `[0, width)` left to right with every run
either full width or ending exactly at `width` (so only the last can be
narrower); an image of width `2.5 × printable_width_px` (any even
`printable_width_px = 2k`) produces exactly the three runs
`(0, 2k), (2k, 2k), (4k, k)`, the last narrower than the first two; and
the byte stream is the concatenation of the per-run blocks, each of
which ends in `PRINT_NOFEED`. -/
theorem C8_tape_run_split (pw width : Nat) (hpw : 0 < pw) :
    tiles (tapeRuns pw width) 0 width
    ∧ (∀ r ∈ tapeRuns pw width,
        0 < r.2 ∧ r.2 ≤ pw ∧ (r.2 = pw ∨ r.1 + r.2 = width))
    ∧ (∀ k, 0 < k →
        tapeRuns (2 * k) (5 * k) = [(0, 2 * k), (2 * k, 2 * k), (4 * k, k)])
    ∧ (∀ image height offset printwidth padding byte_count gap,
        (runBytes image width height offset printwidth padding byte_count
          gap).getLast? = some Commands.PRINT_NOFEED)
    ∧ (∀ image height raster_px gap,
        printImageBytes image width height raster_px pw gap
          = ((tapeRuns pw width).map (fun r =>
              runBytes image width height r.1 r.2 ((raster_px - pw) / 2)
                (((raster_px - pw) / 2 + pw) / 8) (gap.getD 0))).flatten) := by
  obtain ⟨ht, hb⟩ := tapeRunsAux_tiles pw hpw width width 0 (by omega)
    (by omega)
  refine ⟨ht, hb, tapeRuns_two_and_half, ?_, fun _ _ _ _ => rfl⟩
  intro image height offset printwidth padding byte_count gap
  rw [runBytes, append_singleton_getLast?]

/-- C8 witness: the tiling and run bounds at `printable_width_px = 64`
and image width 160 = 2.5 × 64, the three-run shape at `k = 32`, the
`PRINT_NOFEED` terminator of a concrete run block, and the run
decomposition of a concrete `printImageBytes`. -/
theorem C8_tape_run_split_witness :
    tiles (tapeRuns 64 160) 0 160
    ∧ (∀ r ∈ tapeRuns 64 160,
        0 < r.2 ∧ r.2 ≤ 64 ∧ (r.2 = 64 ∨ r.1 + r.2 = 160))
    ∧ tapeRuns (2 * 32) (5 * 32)
        = [(0, 2 * 32), (2 * 32, 2 * 32), (4 * 32, 32)]
    ∧ (runBytes [] 160 2 0 64 32 12 0).getLast?
        = some Commands.PRINT_NOFEED
    ∧ printImageBytes [] 160 2 128 64 none
        = ((tapeRuns 64 160).map (fun r =>
            runBytes [] 160 2 r.1 r.2 ((128 - 64) / 2)
              (((128 - 64) / 2 + 64) / 8) ((none : Option Nat).getD 0))).flatten :=
  ⟨(C8_tape_run_split 64 160 (by decide)).1,
   (C8_tape_run_split 64 160 (by decide)).2.1,
   (C8_tape_run_split 64 160 (by decide)).2.2.1 32 (by decide),
   (C8_tape_run_split 64 160 (by decide)).2.2.2.1 [] 2 0 64 32 12 0,
   (C8_tape_run_split 64 160 (by decide)).2.2.2.2 [] 2 128 none⟩

end Clabel
